import Mathlib

/-!
# QtNotepad: the document session of `mainwindow.cpp`

A shallow embedding of the four file-affecting slots of `MainWindow`
(`on_actionNew_triggered`, `on_actionOpen_triggered`, `on_actionSave_triggered`,
`on_actionSave_As_triggered`) as pure functions on an explicit application state.

The toolkit collaborators the slots call into (`QFile`, `QTextStream`, `QTextEdit`,
`QFileDialog`, `QMessageBox`) are not part of the repository. They are modelled below
from the specification's description of the collaborators; the path returned by a
file dialog is an argument of the slot, and each `QMessageBox::warning` appends its
message to a log.
-/

namespace Notepad

/-! ## Collaborators -/

/-- Modelled from the spec: the File Storage collaborator behind `QFile`, which is not
part of the repository. A storage maps each path to the bytes of the file stored there
(`none` when no file exists), knows which paths may be opened for reading and for
writing, and supplies the human-readable description of a failed open
(`QFile::errorString`). -/
structure FileStorage where
  files : String → Option String
  readable : String → Bool
  writable : String → Bool
  errorString : String → String

/-- Modelled from the spec: the text mode of `QFile::Text` with `QTextStream`, which is
not part of the repository. `encode` is applied to text on its way to the file
(end-of-line sequences re-encoded to the platform convention), `decode` to the bytes of
a file on their way back (line terminators normalised to a single newline). -/
structure TextMode where
  encode : String → String
  decode : String → String

/-- Modelled from the spec: `QFile::open(QIODevice::ReadOnly | QFile::Text)` followed by
`QTextStream::readAll`. Opening fails on the empty file name, on a path that may not be
read and on a path with no file; otherwise the whole content of the file is available. -/
def FileStorage.openRead (fs : FileStorage) (p : String) : Option String :=
  if p = "" then none
  else if fs.readable p then fs.files p
  else none

/-- Modelled from the spec: `QFile::open(QFile::WriteOnly | QFile::Text)`. Opening fails
on the empty file name and on a path that may not be written; otherwise the file exists
afterwards and is truncated to no content. -/
def FileStorage.openWrite (fs : FileStorage) (p : String) : Option FileStorage :=
  if p = "" then none
  else if fs.writable p then
    some { fs with files := fun q => if q = p then some "" else fs.files q }
  else none

/-- Modelled from the spec: `out << text` on a stream over an open file followed by
`QFile::close`. The bytes are appended to what the file at `p` holds. -/
def FileStorage.write (fs : FileStorage) (p : String) (bytes : String) : FileStorage :=
  { fs with files := fun q => if q = p then some ((fs.files p).getD "" ++ bytes) else fs.files q }

/-! ## Application state -/

/-- The state the slots of `MainWindow` act on: the member `currentFile`, the buffer of
`ui->textEdit` (what `toPlainText` returns and `setText` replaces), the window title,
the storage, and the messages shown by `QMessageBox::warning` so far. -/
structure App where
  currentFile : String
  textEdit : String
  windowTitle : String
  storage : FileStorage
  warnings : List String

/-! ## The slots -/

/-- `MainWindow::on_actionNew_triggered`: `currentFile.clear()`, then
`ui->textEdit->setText(QString())`. -/
def on_actionNew_triggered (s : App) : App :=
  let s := { s with currentFile := "" }
  { s with textEdit := "" }

/-- `MainWindow::on_actionOpen_triggered`, with `filename` the result of
`QFileDialog::getOpenFileName`. `currentFile = filename` is executed before the file is
opened; a failed open shows a warning and returns; a successful one sets the window
title and replaces the text of the editor by the whole content read from the file. -/
def on_actionOpen_triggered (tm : TextMode) (filename : String) (s : App) : App :=
  let s := { s with currentFile := filename }
  match s.storage.openRead filename with
  | none =>
    { s with warnings := s.warnings ++ ["Cannot open file : " ++ s.storage.errorString filename] }
  | some bytes =>
    let s := { s with windowTitle := filename }
    let text := tm.decode bytes
    { s with textEdit := text }

/-- `MainWindow::on_actionSave_triggered`: open `currentFile` for writing; a failed open
shows a warning and returns; otherwise the plain text of the editor is written and the
file closed. -/
def on_actionSave_triggered (tm : TextMode) (s : App) : App :=
  match s.storage.openWrite s.currentFile with
  | none =>
    { s with warnings := s.warnings ++ ["Cannot save file : " ++ s.storage.errorString s.currentFile] }
  | some fs =>
    let text := s.textEdit
    { s with storage := fs.write s.currentFile (tm.encode text) }

/-- `MainWindow::on_actionSave_As_triggered`, with `filename` the result of
`QFileDialog::getSaveFileName`: open `filename` for writing; a failed open shows a
warning and returns; otherwise `currentFile` and the window title are set to `filename`,
the plain text of the editor is written and the file closed. -/
def on_actionSave_As_triggered (tm : TextMode) (filename : String) (s : App) : App :=
  match s.storage.openWrite filename with
  | none =>
    { s with warnings := s.warnings ++ ["Cannot save file : " ++ s.storage.errorString filename] }
  | some fs =>
    let s := { s with currentFile := filename }
    let s := { s with windowTitle := filename }
    let text := s.textEdit
    { s with storage := fs.write filename (tm.encode text) }

/-! ## Reading of the specification used for the refinement claim -/

/-- Save-As as the specification words it: update `currentFile` and the window title to
the chosen path first, then behave exactly like Save. -/
def saveAsBySpec (tm : TextMode) (filename : String) (s : App) : App :=
  on_actionSave_triggered tm { s with currentFile := filename, windowTitle := filename }

/-! ## Concrete platforms and states used to exercise the slots -/

/-- Re-encoding of every newline as carriage return plus newline. -/
def crlfEncode : List Char → List Char
  | [] => []
  | c :: cs => if c = '\n' then '\r' :: '\n' :: crlfEncode cs else c :: crlfEncode cs

/-- Normalisation of every carriage return plus newline to a single newline. -/
def crlfDecode : List Char → List Char
  | [] => []
  | [c] => [c]
  | c :: d :: cs =>
    if c = '\r' ∧ d = '\n' then '\n' :: crlfDecode cs else c :: crlfDecode (d :: cs)

/-- A text mode whose platform end of line is a single newline. -/
def lfText : TextMode := { encode := fun t => t, decode := fun b => b }

/-- A text mode whose platform end of line is carriage return plus newline. -/
def crlfText : TextMode :=
  { encode := fun t => String.mk (crlfEncode t.data)
    decode := fun b => String.mk (crlfDecode b.data) }

/-- A storage holding one file, `/tmp/a.txt` with content `old`; every path but
`/etc/passwd` may be written, and only `/tmp/a.txt` exists to be read. -/
def demoStorage : FileStorage :=
  { files := fun p => if p = "/tmp/a.txt" then some "old" else none
    readable := fun p => decide (p = "/tmp/a.txt")
    writable := fun p => decide (p ≠ "/etc/passwd")
    errorString := fun _ => "No such file or directory" }

/-- A session editing `/tmp/a.txt` whose editor holds two lines. -/
def demoApp : App :=
  { currentFile := "/tmp/a.txt"
    textEdit := "hello\nworld"
    windowTitle := "/tmp/a.txt"
    storage := demoStorage
    warnings := [] }

/-- A session whose `currentFile` may not be written. -/
def lockedApp : App := { demoApp with currentFile := "/etc/passwd", windowTitle := "/etc/passwd" }

/-! ## Facts about the storage model -/

theorem openRead_empty (fs : FileStorage) : fs.openRead "" = none := by
  simp [FileStorage.openRead]

theorem openWrite_empty (fs : FileStorage) : fs.openWrite "" = none := by
  simp [FileStorage.openWrite]

theorem openWrite_eq_some (fs : FileStorage) (p : String)
    (h : (fs.openWrite p).isSome = true) :
    fs.openWrite p
      = some { fs with files := fun q => if q = p then some "" else fs.files q } := by
  unfold FileStorage.openWrite at h ⊢
  by_cases hp : p = ""
  · simp [hp] at h
  · by_cases hw : fs.writable p = true
    · simp [hp, hw]
    · simp [hp, hw] at h

theorem openWrite_isSome_iff (fs : FileStorage) (p : String) :
    (fs.openWrite p).isSome = true ↔ p ≠ "" ∧ fs.writable p = true := by
  unfold FileStorage.openWrite
  by_cases hp : p = ""
  · simp [hp]
  · by_cases hw : fs.writable p = true
    · simp [hp, hw]
    · simp [hp, hw]

/-- What a truncating open followed by one write leaves in storage: the file at `p`
holds exactly `bytes`, every other file is as before. -/
theorem truncate_write_files (fs : FileStorage) (p bytes : String) :
    (FileStorage.write { fs with files := fun q => if q = p then some "" else fs.files q }
        p bytes).files
      = fun q => if q = p then some bytes else fs.files q := by
  funext q
  by_cases hq : q = p
  · simp [FileStorage.write, hq]
  · simp [FileStorage.write, hq]

/-! ## The slots on their two branches -/

theorem save_of_openWrite_none (tm : TextMode) (s : App)
    (h : s.storage.openWrite s.currentFile = none) :
    on_actionSave_triggered tm s
      = { s with warnings :=
            s.warnings ++ ["Cannot save file : " ++ s.storage.errorString s.currentFile] } := by
  simp [on_actionSave_triggered, h]

theorem save_of_openWrite_isSome (tm : TextMode) (s : App)
    (h : (s.storage.openWrite s.currentFile).isSome = true) :
    on_actionSave_triggered tm s
      = { s with storage :=
            { s.storage with
              files := fun q =>
                if q = s.currentFile then some (tm.encode s.textEdit) else s.storage.files q } } := by
  have hf := truncate_write_files s.storage s.currentFile (tm.encode s.textEdit)
  simp only [on_actionSave_triggered, openWrite_eq_some _ _ h]
  simp only [FileStorage.write] at hf ⊢
  rw [hf]

theorem saveAs_of_openWrite_none (tm : TextMode) (filename : String) (s : App)
    (h : s.storage.openWrite filename = none) :
    on_actionSave_As_triggered tm filename s
      = { s with warnings :=
            s.warnings ++ ["Cannot save file : " ++ s.storage.errorString filename] } := by
  simp [on_actionSave_As_triggered, h]

theorem saveAs_of_openWrite_isSome (tm : TextMode) (filename : String) (s : App)
    (h : (s.storage.openWrite filename).isSome = true) :
    on_actionSave_As_triggered tm filename s
      = { s with
          currentFile := filename
          windowTitle := filename
          storage :=
            { s.storage with
              files := fun q =>
                if q = filename then some (tm.encode s.textEdit) else s.storage.files q } } := by
  have hf := truncate_write_files s.storage filename (tm.encode s.textEdit)
  simp only [on_actionSave_As_triggered, openWrite_eq_some _ _ h]
  simp only [FileStorage.write] at hf ⊢
  rw [hf]

theorem open_of_openRead_none (tm : TextMode) (filename : String) (s : App)
    (h : s.storage.openRead filename = none) :
    on_actionOpen_triggered tm filename s
      = { s with
          currentFile := filename
          warnings :=
            s.warnings ++ ["Cannot open file : " ++ s.storage.errorString filename] } := by
  simp [on_actionOpen_triggered, h]

theorem open_of_openRead_some (tm : TextMode) (filename bytes : String) (s : App)
    (h : s.storage.openRead filename = some bytes) :
    on_actionOpen_triggered tm filename s
      = { s with
          currentFile := filename
          windowTitle := filename
          textEdit := tm.decode bytes } := by
  simp [on_actionOpen_triggered, h]

/-! ## New -/

/-- C4: for every prior state, after New the text of the editor is the empty string and
`currentFile` is empty (absent). -/
theorem new_clears_content_and_path (s : App) :
    (on_actionNew_triggered s).textEdit = "" ∧ (on_actionNew_triggered s).currentFile = "" := by
  simp [on_actionNew_triggered]

/-! ## Open -/

/-- C1: at the failing input, a session editing `/tmp/a.txt` in which the user picks the
path `/missing` that cannot be opened for reading, Open leaves the text of the editor
and the window title alone but has already overwritten `currentFile` with `/missing`, so
that a following Save writes the text to `/missing`. -/
theorem open_failure_overwrites_currentFile :
    demoApp.storage.openRead "/missing" = none ∧
    demoApp.currentFile = "/tmp/a.txt" ∧
    (on_actionOpen_triggered lfText "/missing" demoApp).currentFile = "/missing" ∧
    (on_actionOpen_triggered lfText "/missing" demoApp).textEdit = demoApp.textEdit ∧
    (on_actionOpen_triggered lfText "/missing" demoApp).windowTitle = demoApp.windowTitle ∧
    (on_actionSave_triggered lfText
        (on_actionOpen_triggered lfText "/missing" demoApp)).storage.files "/missing"
      = some "hello\nworld" := by
  decide

/-- C7: at the failing input, a session editing `/tmp/a.txt` in which the Open dialog is
cancelled and yields the empty path, Open leaves the text of the editor and the window
title alone but clears `currentFile`. -/
theorem open_cancel_clears_currentFile :
    demoApp.storage.openRead "" = none ∧
    demoApp.currentFile = "/tmp/a.txt" ∧
    (on_actionOpen_triggered lfText "" demoApp).currentFile = "" ∧
    (on_actionOpen_triggered lfText "" demoApp).textEdit = demoApp.textEdit ∧
    (on_actionOpen_triggered lfText "" demoApp).windowTitle = demoApp.windowTitle := by
  decide

/-- C5: after an Open of a path that opens for reading, `currentFile` and the window
title equal that path and the text of the editor is the decoded content of the file at
that path; after a Save-As to a path that opens for writing, `currentFile` and the
window title equal that path. -/
theorem open_saveAs_success_set_path_and_title (tm : TextMode) (s₁ s₂ : App) (P Q : String)
    (hr : (s₁.storage.openRead P).isSome = true)
    (hw : (s₂.storage.openWrite Q).isSome = true) :
    ((on_actionOpen_triggered tm P s₁).currentFile = P ∧
      (on_actionOpen_triggered tm P s₁).windowTitle = P ∧
      some (on_actionOpen_triggered tm P s₁).textEdit = (s₁.storage.files P).map tm.decode) ∧
    ((on_actionSave_As_triggered tm Q s₂).currentFile = Q ∧
      (on_actionSave_As_triggered tm Q s₂).windowTitle = Q) := by
  refine ⟨?_, ?_⟩
  · obtain ⟨bytes, hb⟩ := Option.isSome_iff_exists.mp hr
    have hfile : s₁.storage.files P = some bytes := by
      unfold FileStorage.openRead at hb
      by_cases hp : P = ""
      · simp [hp] at hb
      · by_cases hrd : s₁.storage.readable P = true
        · simpa [hp, hrd] using hb
        · simp [hp, hrd] at hb
    rw [open_of_openRead_some tm P bytes s₁ hb, hfile]
    simp
  · rw [saveAs_of_openWrite_isSome tm Q s₂ hw]
    simp

theorem open_saveAs_success_set_path_and_title_witness :
    ((demoApp.storage.openRead "/tmp/a.txt").isSome = true ∧
      (lockedApp.storage.openWrite "/tmp/b.txt").isSome = true) ∧
    (((on_actionOpen_triggered crlfText "/tmp/a.txt" demoApp).currentFile = "/tmp/a.txt" ∧
      (on_actionOpen_triggered crlfText "/tmp/a.txt" demoApp).windowTitle = "/tmp/a.txt" ∧
      some (on_actionOpen_triggered crlfText "/tmp/a.txt" demoApp).textEdit
        = (demoApp.storage.files "/tmp/a.txt").map crlfText.decode) ∧
    ((on_actionSave_As_triggered crlfText "/tmp/b.txt" lockedApp).currentFile = "/tmp/b.txt" ∧
      (on_actionSave_As_triggered crlfText "/tmp/b.txt" lockedApp).windowTitle = "/tmp/b.txt")) :=
  ⟨⟨by decide, by decide⟩,
    open_saveAs_success_set_path_and_title crlfText demoApp lockedApp "/tmp/a.txt" "/tmp/b.txt"
      (by decide) (by decide)⟩

/-! ## Save -/

/-- C3: when `currentFile` cannot be opened for writing, Save reports the diagnostic
`Cannot save file : ` followed by the error description and leaves the text of the
editor, `currentFile`, the window title and the storage as they were. -/
theorem save_failure_no_mutation (tm : TextMode) (s : App)
    (h : (s.storage.openWrite s.currentFile).isSome = false) :
    (on_actionSave_triggered tm s).warnings
      = s.warnings ++ ["Cannot save file : " ++ s.storage.errorString s.currentFile] ∧
    (on_actionSave_triggered tm s).textEdit = s.textEdit ∧
    (on_actionSave_triggered tm s).currentFile = s.currentFile ∧
    (on_actionSave_triggered tm s).windowTitle = s.windowTitle ∧
    (on_actionSave_triggered tm s).storage = s.storage := by
  have hn : s.storage.openWrite s.currentFile = none := by
    cases ho : s.storage.openWrite s.currentFile with
    | none => rfl
    | some fs => simp [ho] at h
  rw [save_of_openWrite_none tm s hn]
  simp

theorem save_failure_no_mutation_witness :
    (lockedApp.storage.openWrite lockedApp.currentFile).isSome = false ∧
    ((on_actionSave_triggered crlfText lockedApp).warnings
      = lockedApp.warnings
          ++ ["Cannot save file : " ++ lockedApp.storage.errorString lockedApp.currentFile] ∧
    (on_actionSave_triggered crlfText lockedApp).textEdit = lockedApp.textEdit ∧
    (on_actionSave_triggered crlfText lockedApp).currentFile = lockedApp.currentFile ∧
    (on_actionSave_triggered crlfText lockedApp).windowTitle = lockedApp.windowTitle ∧
    (on_actionSave_triggered crlfText lockedApp).storage = lockedApp.storage) :=
  ⟨by decide, save_failure_no_mutation crlfText lockedApp (by decide)⟩

/-- C6: when `currentFile` opens for writing, after Save the file at `currentFile` holds
exactly the encoded text of the editor whatever it held before, every other path of the
storage holds what it held before, the permissions and error descriptions of the storage
are unchanged, no diagnostic is reported, and `currentFile`, the text of the editor and
the window title are unchanged. -/
theorem save_overwrites_exactly_currentFile (tm : TextMode) (s : App)
    (h : (s.storage.openWrite s.currentFile).isSome = true) :
    (on_actionSave_triggered tm s).storage.files s.currentFile = some (tm.encode s.textEdit) ∧
    (∀ q, q ≠ s.currentFile →
      (on_actionSave_triggered tm s).storage.files q = s.storage.files q) ∧
    (on_actionSave_triggered tm s).storage.readable = s.storage.readable ∧
    (on_actionSave_triggered tm s).storage.writable = s.storage.writable ∧
    (on_actionSave_triggered tm s).storage.errorString = s.storage.errorString ∧
    (on_actionSave_triggered tm s).warnings = s.warnings ∧
    (on_actionSave_triggered tm s).currentFile = s.currentFile ∧
    (on_actionSave_triggered tm s).textEdit = s.textEdit ∧
    (on_actionSave_triggered tm s).windowTitle = s.windowTitle := by
  rw [save_of_openWrite_isSome tm s h]
  refine ⟨by simp, ?_, rfl, rfl, rfl, rfl, rfl, rfl, rfl⟩
  intro q hq
  simp [hq]

theorem save_overwrites_exactly_currentFile_witness :
    (demoApp.storage.openWrite demoApp.currentFile).isSome = true ∧
    ((on_actionSave_triggered crlfText demoApp).storage.files demoApp.currentFile
      = some (crlfText.encode demoApp.textEdit) ∧
    (∀ q, q ≠ demoApp.currentFile →
      (on_actionSave_triggered crlfText demoApp).storage.files q = demoApp.storage.files q) ∧
    (on_actionSave_triggered crlfText demoApp).storage.readable = demoApp.storage.readable ∧
    (on_actionSave_triggered crlfText demoApp).storage.writable = demoApp.storage.writable ∧
    (on_actionSave_triggered crlfText demoApp).storage.errorString
      = demoApp.storage.errorString ∧
    (on_actionSave_triggered crlfText demoApp).warnings = demoApp.warnings ∧
    (on_actionSave_triggered crlfText demoApp).currentFile = demoApp.currentFile ∧
    (on_actionSave_triggered crlfText demoApp).textEdit = demoApp.textEdit ∧
    (on_actionSave_triggered crlfText demoApp).windowTitle = demoApp.windowTitle) :=
  ⟨by decide, save_overwrites_exactly_currentFile crlfText demoApp (by decide)⟩

/-- C9: when `currentFile` opens for writing, Save performed twice in succession leaves
exactly the state (storage, `currentFile`, text of the editor, window title, diagnostics)
that Save performed once leaves. -/
theorem save_twice_eq_save_once (tm : TextMode) (s : App)
    (h : (s.storage.openWrite s.currentFile).isSome = true) :
    on_actionSave_triggered tm (on_actionSave_triggered tm s) = on_actionSave_triggered tm s := by
  have hw := (openWrite_isSome_iff s.storage s.currentFile).mp h
  have h1 := save_of_openWrite_isSome tm s h
  have h2 : ((on_actionSave_triggered tm s).storage.openWrite
      (on_actionSave_triggered tm s).currentFile).isSome = true := by
    rw [h1]
    exact (openWrite_isSome_iff _ _).mpr hw
  rw [save_of_openWrite_isSome tm (on_actionSave_triggered tm s) h2, h1]
  have hfiles :
      (fun q => if q = s.currentFile then some (tm.encode s.textEdit)
          else (if q = s.currentFile then some (tm.encode s.textEdit) else s.storage.files q))
        = fun q => if q = s.currentFile then some (tm.encode s.textEdit)
            else s.storage.files q := by
    funext q
    by_cases hq : q = s.currentFile
    · simp [hq]
    · simp [hq]
  simp only [hfiles]

theorem save_twice_eq_save_once_witness :
    (demoApp.storage.openWrite demoApp.currentFile).isSome = true ∧
    on_actionSave_triggered crlfText (on_actionSave_triggered crlfText demoApp)
      = on_actionSave_triggered crlfText demoApp :=
  ⟨by decide, save_twice_eq_save_once crlfText demoApp (by decide)⟩

/-! ## Save-As -/

/-- C8: for a chosen path that opens for writing, Save-As leaves exactly the state
(`currentFile`, text of the editor, window title, storage, diagnostics) that setting
`currentFile` and the window title to that path and then performing Save leaves. -/
theorem saveAs_eq_set_path_then_save (tm : TextMode) (s : App) (P : String)
    (h : (s.storage.openWrite P).isSome = true) :
    on_actionSave_As_triggered tm P s = saveAsBySpec tm P s := by
  unfold saveAsBySpec
  rw [saveAs_of_openWrite_isSome tm P s h]
  rw [save_of_openWrite_isSome tm { s with currentFile := P, windowTitle := P } h]

theorem saveAs_eq_set_path_then_save_witness :
    (demoApp.storage.openWrite "/tmp/b.txt").isSome = true ∧
    on_actionSave_As_triggered crlfText "/tmp/b.txt" demoApp
      = saveAsBySpec crlfText "/tmp/b.txt" demoApp :=
  ⟨by decide, saveAs_eq_set_path_then_save crlfText demoApp "/tmp/b.txt" (by decide)⟩

/-- C10: for a chosen path that cannot be opened for writing, the empty path of a
cancelled dialog included, Save-As reports the diagnostic `Cannot save file : ` followed
by the error description and leaves `currentFile`, the window title, the text of the
editor and the storage as they were; a Save performed next leaves the same storage and
the same `currentFile` as a Save performed on the state before the Save-As. -/
theorem saveAs_failure_no_mutation (tm : TextMode) (s : App) (P : String)
    (h : P = "" ∨ (s.storage.openWrite P).isSome = false) :
    (on_actionSave_As_triggered tm P s).warnings
      = s.warnings ++ ["Cannot save file : " ++ s.storage.errorString P] ∧
    (on_actionSave_As_triggered tm P s).currentFile = s.currentFile ∧
    (on_actionSave_As_triggered tm P s).windowTitle = s.windowTitle ∧
    (on_actionSave_As_triggered tm P s).textEdit = s.textEdit ∧
    (on_actionSave_As_triggered tm P s).storage = s.storage ∧
    (on_actionSave_triggered tm (on_actionSave_As_triggered tm P s)).storage
      = (on_actionSave_triggered tm s).storage ∧
    (on_actionSave_triggered tm (on_actionSave_As_triggered tm P s)).currentFile
      = s.currentFile := by
  have hn : s.storage.openWrite P = none := by
    rcases h with hP | hP
    · rw [hP]
      exact openWrite_empty s.storage
    · cases ho : s.storage.openWrite P with
      | none => rfl
      | some fs => simp [ho] at hP
  rw [saveAs_of_openWrite_none tm P s hn]
  refine ⟨rfl, rfl, rfl, rfl, rfl, ?_, ?_⟩
  · cases ho : s.storage.openWrite s.currentFile with
    | none => simp [on_actionSave_triggered, ho]
    | some fs => simp [on_actionSave_triggered, ho]
  · cases ho : s.storage.openWrite s.currentFile with
    | none => simp [on_actionSave_triggered, ho]
    | some fs => simp [on_actionSave_triggered, ho]

theorem saveAs_failure_no_mutation_witness :
    (("" : String) = "" ∨ (demoApp.storage.openWrite "").isSome = false) ∧
    ((on_actionSave_As_triggered crlfText "" demoApp).warnings
      = demoApp.warnings ++ ["Cannot save file : " ++ demoApp.storage.errorString ""] ∧
    (on_actionSave_As_triggered crlfText "" demoApp).currentFile = demoApp.currentFile ∧
    (on_actionSave_As_triggered crlfText "" demoApp).windowTitle = demoApp.windowTitle ∧
    (on_actionSave_As_triggered crlfText "" demoApp).textEdit = demoApp.textEdit ∧
    (on_actionSave_As_triggered crlfText "" demoApp).storage = demoApp.storage ∧
    (on_actionSave_triggered crlfText (on_actionSave_As_triggered crlfText "" demoApp)).storage
      = (on_actionSave_triggered crlfText demoApp).storage ∧
    (on_actionSave_triggered crlfText
        (on_actionSave_As_triggered crlfText "" demoApp)).currentFile
      = demoApp.currentFile) :=
  ⟨by decide, saveAs_failure_no_mutation crlfText demoApp "" (by decide)⟩

/-! ## Round trip -/

/-- C2: starting from a state whose editor holds the text `T`, for a path `P` that opens
for writing and, once written, for reading, Save-As to `P` followed by New followed by
Open of `P` leaves the editor holding the read decoding of the write encoding of `T`,
with `currentFile` equal to `P`. -/
theorem saveAs_new_open_round_trip (tm : TextMode) (s : App) (P : String)
    (hw : (s.storage.openWrite P).isSome = true)
    (hr : ((on_actionSave_As_triggered tm P s).storage.openRead P).isSome = true) :
    (on_actionOpen_triggered tm P
        (on_actionNew_triggered (on_actionSave_As_triggered tm P s))).textEdit
      = tm.decode (tm.encode s.textEdit) ∧
    (on_actionOpen_triggered tm P
        (on_actionNew_triggered (on_actionSave_As_triggered tm P s))).currentFile = P := by
  have hread : (on_actionNew_triggered (on_actionSave_As_triggered tm P s)).storage.openRead P
      = some (tm.encode s.textEdit) := by
    have hsame : (on_actionNew_triggered (on_actionSave_As_triggered tm P s)).storage
        = (on_actionSave_As_triggered tm P s).storage := rfl
    rw [hsame]
    rw [saveAs_of_openWrite_isSome tm P s hw] at hr ⊢
    unfold FileStorage.openRead at hr ⊢
    by_cases hp : P = ""
    · simp [hp] at hr
    · by_cases hrd : s.storage.readable P = true
      · simp [hp, hrd]
      · simp [hp, hrd] at hr
  rw [open_of_openRead_some tm P _ _ hread]
  exact ⟨rfl, rfl⟩

theorem saveAs_new_open_round_trip_witness :
    ((demoApp.storage.openWrite "/tmp/a.txt").isSome = true ∧
      ((on_actionSave_As_triggered crlfText "/tmp/a.txt" demoApp).storage.openRead
        "/tmp/a.txt").isSome = true) ∧
    ((on_actionOpen_triggered crlfText "/tmp/a.txt"
        (on_actionNew_triggered
          (on_actionSave_As_triggered crlfText "/tmp/a.txt" demoApp))).textEdit
      = crlfText.decode (crlfText.encode demoApp.textEdit) ∧
    (on_actionOpen_triggered crlfText "/tmp/a.txt"
        (on_actionNew_triggered
          (on_actionSave_As_triggered crlfText "/tmp/a.txt" demoApp))).currentFile
      = "/tmp/a.txt") :=
  ⟨⟨by decide, by decide⟩,
    saveAs_new_open_round_trip crlfText demoApp "/tmp/a.txt" (by decide) (by decide)⟩

end Notepad
